import Mathlib

/-!
Shallow embedding of the webhook relay in src/subscriptions.js.

Modelling conventions:
- A JSON value attached to an item key is modelled by `JVal`.  The relay
  never inspects the inside of a composite value (it only reads top-level
  keys, tests truthiness, and compares the "field" value against a list of
  strings), so composite values (objects and arrays) are modelled opaquely
  by `JVal.objLit`, carrying their serialized text so that distinct
  payloads stay distinct and pass-through equality is meaningful.
- An item (a member of an entry.changes or entry.messaging array) is its
  top-level association list of keys to values, mirroring a JS object.
- External collaborators are parameters: the HMAC-SHA1 primitive from the
  crypto library is an abstract function from secret and raw body to a hex
  digest string, and the network is a `DispatchEnv` assigning to each
  (service name, item) delivery a raw outcome (settle time in abstract
  time units, and an optional error string; none means fulfilled).
- Each express middleware is a function from the request to
  `Option Response`: `none` models calling next(), `some r` models
  responding with r and stopping the chain.
- A promise produced for one (service, item) pair is an `Attempt`
  recording its settle time and final disposition after the test-service
  suppression logic.  `Promise.all` semantics are modelled by `respond`:
  it yields 200 at the maximum settle time when every attempt fulfilled,
  and otherwise yields 500 carrying the error of the earliest-settling
  rejection, at that rejection time (ECMA-262 Promise.all rejects with the
  first rejection, without waiting for the remaining promises).
-/

/-- A JSON value as stored under a top-level key of an item.  Composite
values are opaque (the relay never looks inside them). -/
inductive JVal where
  | str : String → JVal
  | num : Int → JVal
  | jbool : Bool → JVal
  | null : JVal
  | objLit : String → JVal
deriving DecidableEq

/-- An item: the raw JS object, as an association list of top-level keys. -/
def Item : Type := List (String × JVal)

instance : DecidableEq Item := by
  unfold Item
  infer_instance

/-- JS truthiness of a value (objects and arrays are always truthy, the
empty string and zero are falsy). -/
def truthy : JVal → Bool
  | JVal.str s => !(s == "")
  | JVal.num n => !(n == 0)
  | JVal.jbool b => b
  | JVal.null => false
  | JVal.objLit _ => true

/-- JS truthiness of a possibly-absent value (undefined is falsy). -/
def truthyOpt : Option JVal → Bool
  | none => false
  | some v => truthy v

/-- JS truthiness of a possibly-absent string (undefined and "" falsy). -/
def truthyStrOpt : Option String → Bool
  | none => false
  | some s => !(s == "")

/-- Property read `item[k]` on a JS object modelled as an assoc list. -/
def getKey (item : Item) (k : String) : Option JVal :=
  (item.find? (fun p => p.1 == k)).map (fun p => p.2)

/-- The keys of the item, as Object.keys would enumerate them. -/
def itemKeys (item : Item) : List String :=
  item.map (fun p => p.1)

/-- Membership test `arr.indexOf(v) !== -1` where arr is an array of
strings and v an arbitrary JS value: strict equality, so only a string
can match. -/
def jsStrIndexOf (l : List String) (v : Option JVal) : Bool :=
  match v with
  | some (JVal.str s) => l.contains s
  | _ => false

/-- Loose equality (==) between two possibly-undefined strings. -/
def jsLooseEqOpt (a b : Option String) : Bool :=
  match a, b with
  | none, none => true
  | some x, some y => x == y
  | _, _ => false

/-- MESSAGE_FIELD_MAP from subscriptions.js: wire-level event group name to
the canonical key detecting that kind inside a raw messaging payload.
A name outside the table yields undefined. -/
def MESSAGE_FIELD_MAP : String → Option String
  | "messages" => some "message"
  | "message_deliveries" => some "delivery"
  | "messaging_optins" => some "optin"
  | "messaging_postbacks" => some "postback"
  | "message_reads" => some "read"
  | _ => none

/-- An HTTP response: status code and body text. -/
structure Response where
  status : Nat
  body : String
deriving DecidableEq

/-- One inbound entry of the envelope.  changes and messaging are the
optional arrays of the JS object (an absent key is none; note that an
empty array present on the object is `some []`, which is truthy in JS). -/
structure Entry where
  id : String
  time : Int
  changes : Option (List Item)
  messaging : Option (List Item)
deriving DecidableEq

/-- The parsed inbound envelope. -/
structure Envelope where
  object : String
  entry : List Entry
deriving DecidableEq

/-- An inbound HTTP request, restricted to what the relay reads. -/
structure Request where
  queryHubMode : Option String
  queryVerifyToken : Option String
  queryChallenge : Option String
  headerSignature : Option String
  rawBody : String
  body : Envelope
deriving DecidableEq

/-- A configured downstream service. -/
structure Service where
  type : String
  fields : Option (List String)
  test : Bool
  url : String
  token : Option String
  methodName : String
deriving DecidableEq

/-- validateRequest middleware: pass through when the request is a
subscription handshake or carries a (truthy) x-hub-signature header,
otherwise respond 200 "pong". -/
def validateRequest (req : Request) : Option Response :=
  if (req.queryHubMode == some "subscribe") || truthyStrOpt req.headerSignature then
    none
  else
    some ⟨200, "pong"⟩

/-- authorizeFacebook middleware: answer the hub.mode=subscribe handshake
by comparing hub.verify_token against the configured token (JS loose
equality between possibly-undefined strings), echoing hub.challenge on
success; pass non-handshake requests through. -/
def authorizeFacebook (fbVerifyToken : Option String) (req : Request) : Option Response :=
  if req.queryHubMode == some "subscribe" then
    if jsLooseEqOpt req.queryVerifyToken fbVerifyToken then
      some ⟨200, req.queryChallenge.getD ""⟩
    else
      some ⟨400, "Invalid token"⟩
  else
    none

/-- verifyHubSignature middleware: when an x-hub-signature header is
present, compare it (strict string equality) against
"sha1=" ++ hex(HMAC-SHA1(clientSecret, rawBody)); respond 400 on
mismatch, pass through on match or when the header is absent.  The HMAC
primitive of the crypto library is the abstract parameter hmacSha1Hex. -/
def verifyHubSignature (hmacSha1Hex : String → String → String)
    (clientSecret : String) (req : Request) : Option Response :=
  match req.headerSignature with
  | none => none
  | some signature =>
    if ("sha1=" ++ hmacSha1Hex clientSecret req.rawBody) == signature then
      none
    else
      some ⟨400, "Invalid signature"⟩

/-- validateFields from subscriptions.js: FEED validation when the item
carries a truthy field key, message validation (translate the service
fields through MESSAGE_FIELD_MAP and look for a matching top-level key)
when it carries a truthy sender key, otherwise no match. -/
def validateFields (serviceFields : List String) (item : Item) : Bool :=
  if truthyOpt (getKey item "field") then
    jsStrIndexOf serviceFields (getKey item "field")
  else if truthyOpt (getKey item "sender") then
    (itemKeys item).any (fun key =>
      (serviceFields.map MESSAGE_FIELD_MAP).contains (some key))
  else
    false

/-- The guard in pushItem: a service receives the item when its fields
list is absent or empty, or validateFields accepts. -/
def serviceMatch (s : Service) (item : Item) : Bool :=
  match s.fields with
  | none => true
  | some fs => fs.isEmpty || validateFields fs item

/-- One outbound entry produced by getBody. -/
structure OutEntry where
  time : Int
  id : String
  changes : Option (List Item)
  messaging : Option (List Item)
deriving DecidableEq

/-- The outbound envelope produced by getBody. -/
structure Body where
  object : String
  entry : List OutEntry
deriving DecidableEq

/-- getBody from subscriptions.js: re-wrap the single item under a
one-element entry array carrying the original account id and time; the
item lands in a one-element changes array when it has a truthy field key
and in a one-element messaging array when it has a truthy sender key. -/
def getBody (facebookId : String) (time : Int) (item : Item) : Body :=
  let e0 : OutEntry := ⟨time, facebookId, none, none⟩
  let e1 : OutEntry :=
    if truthyOpt (getKey item "field") then
      { e0 with changes := some [item] }
    else e0
  let e2 : OutEntry :=
    if truthyOpt (getKey item "sender") then
      { e1 with messaging := some [item] }
    else e1
  ⟨"page", [e2]⟩

/-- Raw transport outcome of one delivery, before suppression: an
abstract settle time and an optional error (none means fulfilled). -/
structure RawResult where
  time : Nat
  error : Option String

/-- The network and downstream services, keyed by service name and item. -/
def DispatchEnv : Type := String → Item → RawResult

/-- One (service, item) delivery promise after the Push logic: its settle
time and final disposition (none means it resolved). -/
structure Attempt where
  name : String
  service : Service
  facebookId : String
  time : Int
  item : Item
  settleTime : Nat
  result : Option String
deriving DecidableEq

/-- The promise built in pushItem for one matched service: a supported
transport (ddp or http) runs the delivery, applying the test-service
suppression to a failure; any other type rejects synchronously with
"Service type not supported" (no suppression on that path). -/
def dispatchAttempt (env : DispatchEnv) (name : String) (s : Service)
    (facebookId : String) (item : Item) (time : Int) : Attempt :=
  if (s.type == "ddp") || (s.type == "http") then
    let r := env name item
    { name := name, service := s, facebookId := facebookId, time := time,
      item := item, settleTime := r.time,
      result :=
        match r.error with
        | none => none
        | some e => if s.test then none else some e }
  else
    { name := name, service := s, facebookId := facebookId, time := time,
      item := item, settleTime := 0,
      result := some "Service type not supported" }

/-- pushItem: walk the configured services in order and build one
delivery promise for each service whose filter matches the item. -/
def pushItemAttempts (env : DispatchEnv) (services : List (String × Service))
    (facebookId : String) (item : Item) (time : Int) : List Attempt :=
  services.filterMap (fun p =>
    if serviceMatch p.2 item then
      some (dispatchAttempt env p.1 p.2 facebookId item time)
    else none)

/-- Flat-map helper mirroring nested forEach/push loops. -/
def concatMap (f : α → List β) : List α → List β
  | [] => []
  | x :: xs => f x ++ concatMap f xs

/-- The items one entry contributes in the handler loop: the members of
entry.changes when that key is present (a present empty array is truthy,
so it still shadows messaging), else the members of entry.messaging when
present, else nothing. -/
def entryItems (e : Entry) : List Item :=
  match e.changes with
  | some cs => cs
  | none =>
    match e.messaging with
    | some ms => ms
    | none => []

/-- The flat dispatch plan of the handler: for each entry, each of its
items tagged with the entry id and time. -/
def processEntries (envl : Envelope) : List (String × Int × Item) :=
  concatMap (fun e => (entryItems e).map (fun i => (e.id, e.time, i))) envl.entry

/-- Every delivery promise created for the envelope, in creation order. -/
def allAttempts (env : DispatchEnv) (services : List (String × Service))
    (envl : Envelope) : List Attempt :=
  concatMap (fun x => pushItemAttempts env services x.1 x.2.2 x.2.1)
    (processEntries envl)

/-- Largest settle time among the attempts (when the aggregate fulfils,
Promise.all resolves once the last promise has). -/
def maxSettle : List Attempt → Nat
  | [] => 0
  | a :: rest => max a.settleTime (maxSettle rest)

/-- The rejection Promise.all settles on: the earliest-settling rejected
attempt, ties broken towards the earlier promise in creation order. -/
def earliestFailure : List Attempt → Option Attempt
  | [] => none
  | a :: rest =>
    match a.result, earliestFailure rest with
    | none, r => r
    | some _, none => some a
    | some _, some b => if b.settleTime < a.settleTime then some b else some a

/-- Promise.all then/catch aggregation: the response the gatekeeper sends
and the abstract time at which it is sent. -/
def respond (attempts : List Attempt) : Response × Nat :=
  match earliestFailure attempts with
  | none => (⟨200, "OK"⟩, maxSettle attempts)
  | some a => (⟨500, a.result.getD ""⟩, a.settleTime)

/-- The final handler: reject a non-page envelope with 400, otherwise
fan out and aggregate.  Returns the response together with the list of
delivery promises that were created. -/
def processBody (env : DispatchEnv) (services : List (String × Service))
    (envl : Envelope) : Response × List Attempt :=
  if envl.object == "page" then
    let attempts := allAttempts env services envl
    ((respond attempts).1, attempts)
  else
    (⟨400, "Bad Request"⟩, [])

/-- Static configuration consumed by the app. -/
structure Config where
  fbVerifyToken : Option String
  clientSecret : String
  services : List (String × Service)

/-- The full middleware chain of the app: validateRequest, then
authorizeFacebook, then verifyHubSignature, then the fanout handler. -/
def handleRequest (hmacSha1Hex : String → String → String) (cfg : Config)
    (env : DispatchEnv) (req : Request) : Response × List Attempt :=
  match validateRequest req with
  | some r => (r, [])
  | none =>
    match authorizeFacebook cfg.fbVerifyToken req with
    | some r => (r, [])
    | none =>
      match verifyHubSignature hmacSha1Hex cfg.clientSecret req with
      | some r => (r, [])
      | none => processBody env cfg.services req.body

/-- URL used by the http transport: the service URL, with the token
appended as a query parameter when present and truthy. -/
def httpUrl (s : Service) : String :=
  if truthyStrOpt s.token then s.url ++ "?token=" ++ s.token.getD "" else s.url

/-- The outbound HTTP POSTs issued while processing the envelope: one per
created delivery promise whose service type is "http", pairing the URL
with the body built by getBody (the POST is issued whether or not the
delivery later succeeds). -/
def outboundPosts (env : DispatchEnv) (services : List (String × Service))
    (envl : Envelope) : List (String × Body) :=
  (allAttempts env services envl).filterMap (fun a =>
    if a.service.type == "http" then
      some (httpUrl a.service, getBody a.facebookId a.time a.item)
    else none)

/-- The item of the end-to-end example: field "feed", empty object value. -/
def c7Item : Item := [("field", JVal.str "feed"), ("value", JVal.objLit "\x7b\x7d")]

/-- The http service of the end-to-end example, subscribed to "feed". -/
def c7Service : Service := ⟨"http", some ["feed"], false, "https://svc.example/hook", none, ""⟩

/-- The inbound envelope of the end-to-end example. -/
def c7Envelope : Envelope := ⟨"page", [⟨"42", 1000, some [c7Item], none⟩]⟩

/-- A change-style item used in the entry-loop scenarios. -/
def c6Change : Item := [("field", JVal.str "feed"), ("value", JVal.objLit "v1")]

/-- A messaging-style item used in the entry-loop scenarios. -/
def c6Messaging : Item := [("sender", JVal.objLit "u1"), ("message", JVal.objLit "m1")]

/-- A subscribed-to-everything http service. -/
def c6Service : Service := ⟨"http", none, false, "http://svc.example", none, ""⟩

/-- An envelope whose single entry carries both a changes array and a
messaging array. -/
def c6BothEnvelope : Envelope := ⟨"page", [⟨"7", 77, some [c6Change], some [c6Messaging]⟩]⟩

/-- A network where service failA rejects at time 1 and service slowB
fulfils at time 5. -/
def cxEnv : DispatchEnv :=
  fun n _ => if n == "slowB" then ⟨5, none⟩ else ⟨1, some "boom"⟩

/-- Two catch-all non-test http services, one failing fast and one slow. -/
def cxServices : List (String × Service) :=
  [("failA", ⟨"http", none, false, "http://fail.example", none, ""⟩),
   ("slowB", ⟨"http", none, false, "http://slow.example", none, ""⟩)]

/-- A one-entry, one-item inbound envelope. -/
def cxEnvelope : Envelope :=
  ⟨"page", [⟨"42", 1000, some [[("field", JVal.str "feed")]], none⟩]⟩

/-! ### Helper lemmas -/

theorem dispatchAttempt_name (env : DispatchEnv) (n : String) (s : Service)
    (fb : String) (it : Item) (t : Int) :
    (dispatchAttempt env n s fb it t).name = n := by
  unfold dispatchAttempt
  split <;> rfl

theorem dispatchAttempt_service (env : DispatchEnv) (n : String) (s : Service)
    (fb : String) (it : Item) (t : Int) :
    (dispatchAttempt env n s fb it t).service = s := by
  unfold dispatchAttempt
  split <;> rfl

theorem dispatchAttempt_facebookId (env : DispatchEnv) (n : String) (s : Service)
    (fb : String) (it : Item) (t : Int) :
    (dispatchAttempt env n s fb it t).facebookId = fb := by
  unfold dispatchAttempt
  split <;> rfl

theorem dispatchAttempt_time (env : DispatchEnv) (n : String) (s : Service)
    (fb : String) (it : Item) (t : Int) :
    (dispatchAttempt env n s fb it t).time = t := by
  unfold dispatchAttempt
  split <;> rfl

theorem dispatchAttempt_item (env : DispatchEnv) (n : String) (s : Service)
    (fb : String) (it : Item) (t : Int) :
    (dispatchAttempt env n s fb it t).item = it := by
  unfold dispatchAttempt
  split <;> rfl

theorem earliestFailure_eq_none_iff (attempts : List Attempt) :
    earliestFailure attempts = none ↔ ∀ a ∈ attempts, a.result = none := by
  induction attempts with
  | nil => simp [earliestFailure]
  | cons a rest ih =>
    unfold earliestFailure
    cases h : a.result with
    | none =>
      simp only [List.mem_cons]
      constructor
      · intro hr b hb
        rcases hb with hb | hb
        · rw [hb]; exact h
        · exact (ih.mp hr) b hb
      · intro hall
        exact ih.mpr (fun b hb => hall b (Or.inr hb))
    | some e =>
      cases hr : earliestFailure rest with
      | none =>
        simp only [List.mem_cons]
        constructor
        · intro hc; cases hc
        · intro hall
          have := hall a (Or.inl rfl)
          rw [h] at this
          cases this
      | some b =>
        constructor
        · intro hc
          by_cases hlt : b.settleTime < a.settleTime <;> simp [hlt] at hc
        · intro hall
          have := hall a (List.mem_cons_self a rest)
          rw [h] at this
          cases this

theorem respond_200_iff (attempts : List Attempt) :
    (respond attempts).1 = ⟨200, "OK"⟩ ↔ ∀ a ∈ attempts, a.result = none := by
  rw [← earliestFailure_eq_none_iff]
  unfold respond
  cases h : earliestFailure attempts with
  | none => simp
  | some a => simp

theorem earliestFailure_mem_isSome (attempts : List Attempt) (a : Attempt)
    (ha : a ∈ attempts) (hf : a.result.isSome) :
    (earliestFailure attempts).isSome := by
  cases h : earliestFailure attempts with
  | some b => rfl
  | none =>
    have := (earliestFailure_eq_none_iff attempts).mp h a ha
    rw [this] at hf
    cases hf

theorem respond_500_of_failure (attempts : List Attempt) (a : Attempt) (e : String)
    (ha : a ∈ attempts) (he : a.result = some e) :
    (respond attempts).1.status = 500 := by
  have hs : (earliestFailure attempts).isSome := by
    apply earliestFailure_mem_isSome attempts a ha
    rw [he]; rfl
  unfold respond
  cases h : earliestFailure attempts with
  | none => rw [h] at hs; cases hs
  | some b => rfl

theorem jsStrIndexOf_eq_true (l : List String) (v : Option JVal) :
    jsStrIndexOf l v = true ↔ ∃ s, v = some (JVal.str s) ∧ s ∈ l := by
  cases v with
  | none => simp [jsStrIndexOf]
  | some jv => cases jv <;> simp [jsStrIndexOf]

/-- C4: for an item classified as a MessagingEvent (truthy sender key, no
truthy field key) and a service with a non-empty field list, the filter
matches iff some entry of the field list, translated through
MESSAGE_FIELD_MAP, is a key present in the raw item payload. -/
theorem messaging_filter_spec (s : Service) (fs : List String) (item : Item)
    (hfs : s.fields = some fs) (hne : fs ≠ [])
    (hfield : truthyOpt (getKey item "field") = false)
    (hsender : truthyOpt (getKey item "sender") = true) :
    serviceMatch s item = true ↔
      ∃ f ∈ fs, ∃ k, MESSAGE_FIELD_MAP f = some k ∧ k ∈ itemKeys item := by
  unfold serviceMatch
  rw [hfs]
  unfold validateFields
  rw [hfield, hsender]
  simp only [Bool.false_eq_true, if_false, if_true, Bool.or_eq_true,
    List.isEmpty_iff, List.any_eq_true]
  constructor
  · intro h
    rcases h with h | h
    · exact absurd h hne
    · rcases h with ⟨k, hk, hc⟩
      rcases List.mem_map.mp (List.elem_iff.mp hc) with ⟨f, hf, hmap⟩
      exact ⟨f, hf, k, hmap, hk⟩
  · intro h
    rcases h with ⟨f, hf, k, hmap, hk⟩
    exact Or.inr ⟨k, hk, List.elem_iff.mpr (List.mem_map.mpr ⟨f, hf, hmap⟩)⟩

theorem messaging_filter_spec_witness :
    (serviceMatch ⟨"http", some ["messages"], false, "", none, ""⟩
      [("sender", JVal.objLit "u1"), ("message", JVal.objLit "hi")] = true) ∧
    (serviceMatch ⟨"http", some ["messages"], false, "", none, ""⟩
      [("sender", JVal.objLit "u1"), ("delivery", JVal.objLit "d1")] = false) := by
  constructor
  · exact (messaging_filter_spec ⟨"http", some ["messages"], false, "", none, ""⟩
      ["messages"] [("sender", JVal.objLit "u1"), ("message", JVal.objLit "hi")]
      rfl (by decide) (by decide) (by decide)).mpr
      ⟨"messages", by decide, "message", rfl, by decide⟩
  · by_contra hc
    simp only [Bool.not_eq_false] at hc
    rcases (messaging_filter_spec ⟨"http", some ["messages"], false, "", none, ""⟩
      ["messages"] [("sender", JVal.objLit "u1"), ("delivery", JVal.objLit "d1")]
      rfl (by decide) (by decide) (by decide)).mp hc with ⟨f, hf, k, hmap, hk⟩
    have hf2 : f = "messages" := by simpa using hf
    subst hf2
    have h0 : MESSAGE_FIELD_MAP "messages" = some "message" := rfl
    rw [h0] at hmap
    cases hmap
    exact absurd hk (by decide)

/-- C5: for an item classified as a Change (truthy field key), the filter
matches iff the service field list is absent or empty, or the field value
is literally (as a string) a member of that list. -/
theorem change_filter_spec (s : Service) (item : Item)
    (hfield : truthyOpt (getKey item "field") = true) :
    serviceMatch s item = true ↔
      (s.fields.getD [] = [] ∨
        ∃ str, getKey item "field" = some (JVal.str str) ∧ str ∈ s.fields.getD []) := by
  unfold serviceMatch
  cases hf : s.fields with
  | none => simp
  | some fs =>
    unfold validateFields
    rw [hfield]
    simp only [if_true, Bool.or_eq_true, List.isEmpty_iff, Option.getD_some]
    rw [jsStrIndexOf_eq_true]

theorem change_filter_spec_witness :
    (serviceMatch ⟨"http", some ["feed"], false, "", none, ""⟩
      [("field", JVal.str "feed"), ("value", JVal.objLit "v")] = true) ∧
    (serviceMatch ⟨"http", none, false, "", none, ""⟩
      [("field", JVal.str "other")] = true) := by
  constructor
  · exact (change_filter_spec ⟨"http", some ["feed"], false, "", none, ""⟩
      [("field", JVal.str "feed"), ("value", JVal.objLit "v")] (by decide)).mpr
      (Or.inr ⟨"feed", rfl, by decide⟩)
  · exact (change_filter_spec ⟨"http", none, false, "", none, ""⟩
      [("field", JVal.str "other")] (by decide)).mpr (Or.inl rfl)

/-- C9: with hub.mode=subscribe, a supplied verify token equal to the
configured one yields 200 echoing the supplied challenge verbatim, a
different token yields 400 "Invalid token"; without hub.mode=subscribe
the authorizer passes the request through (returns none). -/
theorem handshake_spec (fbTok tok ch : String) (req : Request) :
    (req.queryHubMode = some "subscribe" →
      req.queryVerifyToken = some tok → req.queryChallenge = some ch →
      ((tok = fbTok → authorizeFacebook (some fbTok) req = some ⟨200, ch⟩) ∧
       (tok ≠ fbTok → authorizeFacebook (some fbTok) req = some ⟨400, "Invalid token"⟩))) ∧
    (req.queryHubMode ≠ some "subscribe" → authorizeFacebook (some fbTok) req = none) := by
  constructor
  · intro hm hv hc
    unfold authorizeFacebook jsLooseEqOpt
    rw [hm, hv, hc]
    constructor
    · intro he
      simp [he]
    · intro hne
      simp [hne]
  · intro hm
    unfold authorizeFacebook
    have : (req.queryHubMode == some "subscribe") = false := by
      exact beq_eq_false_iff_ne.mpr hm
    simp [this]

theorem handshake_spec_witness :
    (authorizeFacebook (some "tok1")
      ⟨some "subscribe", some "tok1", some "ch-99", none, "", ⟨"page", []⟩⟩
      = some ⟨200, "ch-99"⟩) ∧
    (authorizeFacebook (some "tok1")
      ⟨some "subscribe", some "bad", some "ch-99", none, "", ⟨"page", []⟩⟩
      = some ⟨400, "Invalid token"⟩) ∧
    (authorizeFacebook (some "tok1")
      ⟨none, none, none, some "sig", "b", ⟨"page", []⟩⟩ = none) := by
  refine ⟨?_, ?_, ?_⟩
  · exact (((handshake_spec "tok1" "tok1" "ch-99"
      ⟨some "subscribe", some "tok1", some "ch-99", none, "", ⟨"page", []⟩⟩).1
      rfl rfl rfl).1 rfl)
  · exact (((handshake_spec "tok1" "bad" "ch-99"
      ⟨some "subscribe", some "bad", some "ch-99", none, "", ⟨"page", []⟩⟩).1
      rfl rfl rfl).2 (by decide))
  · exact ((handshake_spec "tok1" "x" "y"
      ⟨none, none, none, some "sig", "b", ⟨"page", []⟩⟩).2 (by decide))

/-- C10: a request with no hub.mode=subscribe query and no x-hub-signature
header is answered 200 "pong" by the gatekeeper, with no dispatch
attempt and independently of the configuration, the network and the
body (so no later stage contributes to the response). -/
theorem soft_accept_spec (hmacSha1Hex : String → String → String) (cfg : Config)
    (env : DispatchEnv) (req : Request)
    (hmode : req.queryHubMode ≠ some "subscribe")
    (hsig : req.headerSignature = none) :
    handleRequest hmacSha1Hex cfg env req = (⟨200, "pong"⟩, []) := by
  unfold handleRequest validateRequest
  have hm : (req.queryHubMode == some "subscribe") = false :=
    beq_eq_false_iff_ne.mpr hmode
  rw [hsig, hm]
  simp [truthyStrOpt]

theorem soft_accept_spec_witness :
    handleRequest (fun _ _ => "d") ⟨none, "secret", []⟩ (fun _ _ => ⟨0, none⟩)
      ⟨none, none, none, none, "", ⟨"page", []⟩⟩ = (⟨200, "pong"⟩, []) :=
  soft_accept_spec (fun _ _ => "d") ⟨none, "secret", []⟩ (fun _ _ => ⟨0, none⟩)
    ⟨none, none, none, none, "", ⟨"page", []⟩⟩ (by decide) rfl

/-- C2: with an x-hub-signature header present, the verifier passes the
request through iff the header equals "sha1=" followed by the hex
HMAC-SHA1 of the raw body under the secret; on mismatch it responds 400
"Invalid signature" and the app performs no dispatch attempt; with the
header absent it passes the request through. -/
theorem signature_verifier_spec (hmacSha1Hex : String → String → String)
    (secret : String) (req : Request) :
    (∀ sig, req.headerSignature = some sig →
      ((verifyHubSignature hmacSha1Hex secret req = none ↔
          sig = "sha1=" ++ hmacSha1Hex secret req.rawBody) ∧
       (sig ≠ "sha1=" ++ hmacSha1Hex secret req.rawBody →
         verifyHubSignature hmacSha1Hex secret req = some ⟨400, "Invalid signature"⟩ ∧
         ∀ fbTok services env,
           (handleRequest hmacSha1Hex ⟨fbTok, secret, services⟩ env req).2 = []))) ∧
    (req.headerSignature = none → verifyHubSignature hmacSha1Hex secret req = none) := by
  constructor
  · intro sig hsig
    have hval : verifyHubSignature hmacSha1Hex secret req =
        (if ("sha1=" ++ hmacSha1Hex secret req.rawBody) == sig then none
         else some ⟨400, "Invalid signature"⟩) := by
      unfold verifyHubSignature
      rw [hsig]
    constructor
    · rw [hval]
      by_cases he : ("sha1=" ++ hmacSha1Hex secret req.rawBody) = sig
      · have hb : (("sha1=" ++ hmacSha1Hex secret req.rawBody) == sig) = true :=
          beq_iff_eq.mpr he
        rw [hb]
        simp [he]
      · have hb : (("sha1=" ++ hmacSha1Hex secret req.rawBody) == sig) = false :=
          beq_eq_false_iff_ne.mpr he
        rw [hb]
        simp only [Bool.false_eq_true, if_false]
        constructor
        · intro hc
          exact Option.noConfusion hc
        · intro hc
          exact absurd hc.symm he
    · intro hne
      have hb : (("sha1=" ++ hmacSha1Hex secret req.rawBody) == sig) = false :=
        beq_eq_false_iff_ne.mpr (fun hc => hne hc.symm)
      have h400 : verifyHubSignature hmacSha1Hex secret req =
          some ⟨400, "Invalid signature"⟩ := by
        rw [hval, hb]
        simp only [Bool.false_eq_true, if_false]
      refine ⟨h400, ?_⟩
      intro fbTok services env
      unfold handleRequest
      cases h1 : validateRequest req with
      | some r => rfl
      | none =>
        cases h2 : authorizeFacebook fbTok req with
        | some r => rfl
        | none =>
          rw [h400]
  · intro hnone
    unfold verifyHubSignature
    rw [hnone]

theorem signature_verifier_spec_witness :
    (verifyHubSignature (fun _ _ => "ff") "s"
      ⟨none, none, none, some "nope", "b", ⟨"page", []⟩⟩
      = some ⟨400, "Invalid signature"⟩) ∧
    ((handleRequest (fun _ _ => "ff") ⟨none, "s", []⟩ (fun _ _ => ⟨0, none⟩)
      ⟨none, none, none, some "nope", "b", ⟨"page", []⟩⟩).2 = []) := by
  have h := ((signature_verifier_spec (fun _ _ => "ff") "s"
    ⟨none, none, none, some "nope", "b", ⟨"page", []⟩⟩).1 "nope" rfl).2 (by decide)
  exact ⟨h.1, h.2 none [] (fun _ _ => ⟨0, none⟩)⟩

/-- C3: in a batch over one item, a delivery failure of a test service is
suppressed into a success and the batch yields 200 when its sibling
succeeds, while a delivery failure of a non-test service propagates: the
batch yields 500 carrying that error, with the succeeding sibling still
attempted (its promise exists and resolved). -/
theorem test_service_isolation (env : DispatchEnv) (n1 n2 fb : String)
    (s1 s2 : Service) (item : Item) (t : Int) (e : String)
    (h1 : s1.type = "ddp" ∨ s1.type = "http")
    (h2 : s2.type = "ddp" ∨ s2.type = "http")
    (hm1 : serviceMatch s1 item = true) (hm2 : serviceMatch s2 item = true)
    (hfail : (env n1 item).error = some e) (hok : (env n2 item).error = none) :
    (s1.test = true →
      (respond (pushItemAttempts env [(n1, s1), (n2, s2)] fb item t)).1 = ⟨200, "OK"⟩) ∧
    (s1.test = false →
      (respond (pushItemAttempts env [(n1, s1), (n2, s2)] fb item t)).1 = ⟨500, e⟩ ∧
      ∃ a ∈ pushItemAttempts env [(n1, s1), (n2, s2)] fb item t,
        a.name = n2 ∧ a.result = none) := by
  have hsup1 : ((s1.type == "ddp") || (s1.type == "http")) = true := by
    rcases h1 with h | h <;> simp [h]
  have hsup2 : ((s2.type == "ddp") || (s2.type == "http")) = true := by
    rcases h2 with h | h <;> simp [h]
  have hlist : pushItemAttempts env [(n1, s1), (n2, s2)] fb item t =
      [dispatchAttempt env n1 s1 fb item t, dispatchAttempt env n2 s2 fb item t] := by
    unfold pushItemAttempts
    simp [hm1, hm2]
  have r2 : (dispatchAttempt env n2 s2 fb item t).result = none := by
    simp [dispatchAttempt, hsup2, hok]
  constructor
  · intro htest
    have r1 : (dispatchAttempt env n1 s1 fb item t).result = none := by
      simp [dispatchAttempt, hsup1, hfail, htest]
    apply (respond_200_iff _).mpr
    intro a ha
    rw [hlist] at ha
    rcases List.mem_cons.mp ha with h | h
    · rw [h]; exact r1
    · rw [List.mem_singleton.mp h]; exact r2
  · intro htest
    have r1 : (dispatchAttempt env n1 s1 fb item t).result = some e := by
      simp [dispatchAttempt, hsup1, hfail, htest]
    have hEF : earliestFailure [dispatchAttempt env n1 s1 fb item t,
        dispatchAttempt env n2 s2 fb item t] = some (dispatchAttempt env n1 s1 fb item t) := by
      simp [earliestFailure, r1, r2]
    refine ⟨?_, ?_⟩
    · rw [hlist]
      simp [respond, hEF, r1]
    · refine ⟨dispatchAttempt env n2 s2 fb item t, ?_, dispatchAttempt_name env n2 s2 fb item t, r2⟩
      rw [hlist]
      simp

theorem test_service_isolation_witness :
    ((respond (pushItemAttempts
        (fun n _ => if n == "svcA" then ⟨3, some "boom"⟩ else ⟨4, none⟩)
        [("svcA", ⟨"http", none, true, "http://a.example", none, ""⟩),
         ("svcB", ⟨"http", none, false, "http://b.example", none, ""⟩)]
        "42" [("field", JVal.str "feed")] 7)).1 = ⟨200, "OK"⟩) ∧
    ((respond (pushItemAttempts
        (fun n _ => if n == "svcA" then ⟨3, some "boom"⟩ else ⟨4, none⟩)
        [("svcA", ⟨"http", none, false, "http://a.example", none, ""⟩),
         ("svcB", ⟨"http", none, false, "http://b.example", none, ""⟩)]
        "42" [("field", JVal.str "feed")] 7)).1 = ⟨500, "boom"⟩) := by
  constructor
  · exact (test_service_isolation
      (fun n _ => if n == "svcA" then ⟨3, some "boom"⟩ else ⟨4, none⟩)
      "svcA" "svcB" "42"
      ⟨"http", none, true, "http://a.example", none, ""⟩
      ⟨"http", none, false, "http://b.example", none, ""⟩
      [("field", JVal.str "feed")] 7 "boom"
      (Or.inr rfl) (Or.inr rfl) (by decide) (by decide)
      (by decide) (by decide)).1 rfl
  · exact ((test_service_isolation
      (fun n _ => if n == "svcA" then ⟨3, some "boom"⟩ else ⟨4, none⟩)
      "svcA" "svcB" "42"
      ⟨"http", none, false, "http://a.example", none, ""⟩
      ⟨"http", none, false, "http://b.example", none, ""⟩
      [("field", JVal.str "feed")] 7 "boom"
      (Or.inr rfl) (Or.inr rfl) (by decide) (by decide)
      (by decide) (by decide)).2 rfl).1

/-- C8: a service whose configured type is neither "ddp" nor "http" fails
synchronously (settle time 0) with the error "Service type not
supported", regardless of the test flag, and any batch containing such an
attempt aggregates to a 500 response. -/
theorem unsupported_transport_spec (env : DispatchEnv) (name fb : String)
    (s : Service) (item : Item) (t : Int)
    (h1 : s.type ≠ "ddp") (h2 : s.type ≠ "http") :
    (dispatchAttempt env name s fb item t).result = some "Service type not supported" ∧
    (dispatchAttempt env name s fb item t).settleTime = 0 ∧
    ∀ attempts : List Attempt, dispatchAttempt env name s fb item t ∈ attempts →
      (respond attempts).1.status = 500 := by
  have hb : ((s.type == "ddp") || (s.type == "http")) = false := by
    simp [beq_eq_false_iff_ne.mpr h1, beq_eq_false_iff_ne.mpr h2]
  have hd : dispatchAttempt env name s fb item t =
      { name := name, service := s, facebookId := fb, time := t, item := item,
        settleTime := 0, result := some "Service type not supported" } := by
    unfold dispatchAttempt
    rw [hb]
    simp
  refine ⟨by rw [hd], by rw [hd], ?_⟩
  intro attempts ha
  exact respond_500_of_failure attempts _ "Service type not supported" ha (by rw [hd])

theorem unsupported_transport_spec_witness :
    ((dispatchAttempt (fun _ _ => ⟨2, none⟩) "svcX" ⟨"smtp", none, true, "", none, ""⟩
        "42" [("field", JVal.str "feed")] 7).result = some "Service type not supported") ∧
    ((respond [dispatchAttempt (fun _ _ => ⟨2, none⟩) "svcX" ⟨"smtp", none, true, "", none, ""⟩
        "42" [("field", JVal.str "feed")] 7]).1.status = 500) := by
  have h := unsupported_transport_spec (fun _ _ => ⟨2, none⟩) "svcX" "42"
    ⟨"smtp", none, true, "", none, ""⟩ [("field", JVal.str "feed")] 7
    (by decide) (by decide)
  exact ⟨h.1, h.2.2 _ (List.mem_singleton.mpr rfl)⟩

theorem map_concatMap (g : β → γ) (f : α → List β) (l : List α) :
    (concatMap f l).map g = concatMap (fun x => (f x).map g) l := by
  induction l with
  | nil => rfl
  | cons x xs ih => simp [concatMap, ih]

theorem concatMap_id_singleton (l : List α) :
    concatMap (fun x => [x]) l = l := by
  induction l with
  | nil => rfl
  | cons x xs ih => simp [concatMap, ih]

theorem pushItemAttempts_proj (env : DispatchEnv) (svcs : List (String × Service))
    (fb : String) (it : Item) (t : Int) :
    (pushItemAttempts env svcs fb it t).map
        (fun a => (a.name, a.facebookId, a.time, a.item)) =
      (svcs.filter (fun p => serviceMatch p.2 it)).map (fun p => (p.1, fb, t, it)) := by
  induction svcs with
  | nil => rfl
  | cons p rest ih =>
    unfold pushItemAttempts at *
    simp only [List.filterMap_cons, List.filter_cons]
    by_cases h : serviceMatch p.2 it = true
    · simp only [h, if_true, List.map_cons, dispatchAttempt_name,
        dispatchAttempt_facebookId, dispatchAttempt_time, dispatchAttempt_item, ih]
    · simp only [Bool.not_eq_true] at h
      simp only [h, Bool.false_eq_true, if_false, ih]

theorem allAttempts_proj (env : DispatchEnv) (svcs : List (String × Service))
    (envl : Envelope) :
    (allAttempts env svcs envl).map (fun a => (a.name, a.facebookId, a.time, a.item)) =
      concatMap (fun x =>
        (svcs.filter (fun p => serviceMatch p.2 x.2.2)).map (fun p => (p.1, x.1, x.2.1, x.2.2)))
        (processEntries envl) := by
  unfold allAttempts
  generalize processEntries envl = l
  induction l with
  | nil => rfl
  | cons x rest ih =>
    simp only [concatMap, List.map_append]
    rw [pushItemAttempts_proj, ih]

theorem pushItemAttempts_catchall (env : DispatchEnv) (name : String) (svc : Service)
    (fb : String) (it : Item) (t : Int) (hf : svc.fields = none) :
    (pushItemAttempts env [(name, svc)] fb it t).map
        (fun a => (a.facebookId, a.time, a.item)) = [(fb, t, it)] := by
  have hm : serviceMatch svc it = true := by
    unfold serviceMatch
    rw [hf]
  simp [pushItemAttempts, hm, dispatchAttempt_facebookId, dispatchAttempt_time,
    dispatchAttempt_item]

/-- C1 (amended): for a validated page envelope, the gatekeeper responds
200 iff every created dispatch settles successfully (suppressed test
failures included); when some non-suppressed dispatch fails, it responds
500 carrying the error of the earliest-settling rejection, at that
rejection time; and the set of dispatches attempted does not depend on
the delivery outcomes (every matched pair is attempted, with no
fail-fast skipping of attempts). -/
theorem aggregate_response_spec (env env2 : DispatchEnv)
    (svcs : List (String × Service)) (envl : Envelope)
    (h : envl.object = "page") :
    ((processBody env svcs envl).1 = ⟨200, "OK"⟩ ↔
      ∀ a ∈ (processBody env svcs envl).2, a.result = none) ∧
    (∀ a, earliestFailure (processBody env svcs envl).2 = some a →
      (processBody env svcs envl).1 = ⟨500, a.result.getD ""⟩ ∧
      (respond (processBody env svcs envl).2).2 = a.settleTime) ∧
    ((processBody env svcs envl).2.map (fun a => (a.name, a.facebookId, a.time, a.item)) =
      (processBody env2 svcs envl).2.map (fun a => (a.name, a.facebookId, a.time, a.item))) := by
  have hb : (envl.object == "page") = true := beq_iff_eq.mpr h
  have hp : ∀ e : DispatchEnv, processBody e svcs envl =
      ((respond (allAttempts e svcs envl)).1, allAttempts e svcs envl) := by
    intro e
    unfold processBody
    rw [hb]
    rfl
  rw [hp env, hp env2]
  refine ⟨respond_200_iff _, ?_, ?_⟩
  · intro a hEF
    constructor
    · simp [respond, hEF]
    · simp [respond, hEF]
  · rw [allAttempts_proj, allAttempts_proj]

theorem aggregate_response_spec_witness :
    (processBody (fun _ _ => ⟨1, none⟩)
      [("svc", ⟨"http", none, false, "http://s.example", none, ""⟩)]
      ⟨"page", [⟨"42", 9, some [[("field", JVal.str "feed")]], none⟩]⟩).1 = ⟨200, "OK"⟩ :=
  (aggregate_response_spec (fun _ _ => ⟨1, none⟩) (fun _ _ => ⟨1, none⟩)
    [("svc", ⟨"http", none, false, "http://s.example", none, ""⟩)]
    ⟨"page", [⟨"42", 9, some [[("field", JVal.str "feed")]], none⟩]⟩ rfl).1.mpr (by decide)

/-- C1 counterexample: with two matched non-test services, one rejecting
at time 1 and one fulfilling at time 5, the gatekeeper sends the 500
response at time 1, strictly before the sibling dispatch has settled at
time 5 — the aggregation fails fast and does not wait for every dispatch
to settle before responding. -/
theorem respond_before_all_settled :
    ((processBody cxEnv cxServices cxEnvelope).1 = ⟨500, "boom"⟩) ∧
    ((respond (allAttempts cxEnv cxServices cxEnvelope)).2 = 1) ∧
    (maxSettle (allAttempts cxEnv cxServices cxEnvelope) = 5) ∧
    ((respond (allAttempts cxEnv cxServices cxEnvelope)).2 <
      maxSettle (allAttempts cxEnv cxServices cxEnvelope)) := by
  decide

/-- C6 (amended): the handler dispatches, tagged with the entry id and
time, each member of the changes array of an entry carrying one; the
members of the messaging array are dispatched only when the entry
carries no changes array; an entry carrying neither array contributes
nothing. -/
theorem normalizer_items_spec (env : DispatchEnv) (name : String) (svc : Service)
    (envl : Envelope) (hf : svc.fields = none) :
    (allAttempts env [(name, svc)] envl).map (fun a => (a.facebookId, a.time, a.item)) =
      concatMap (fun e =>
        (match e.changes with
         | some cs => cs
         | none => e.messaging.getD []).map (fun i => (e.id, e.time, i))) envl.entry := by
  rw [allAttempts, map_concatMap]
  have hstep : (fun x : String × Int × Item =>
      (pushItemAttempts env [(name, svc)] x.1 x.2.2 x.2.1).map
        (fun a => (a.facebookId, a.time, a.item))) = (fun x => [x]) := by
    funext x
    rw [pushItemAttempts_catchall env name svc x.1 x.2.2 x.2.1 hf]
  rw [hstep, concatMap_id_singleton]
  unfold processEntries
  congr 1
  funext e
  cases hc : e.changes with
  | some cs => simp [entryItems, hc]
  | none =>
    cases hm : e.messaging with
    | some ms => simp [entryItems, hc, hm]
    | none => simp [entryItems, hc, hm]

theorem normalizer_items_spec_witness :
    (allAttempts (fun _ _ => ⟨0, none⟩) [("svc", c6Service)]
      ⟨"page", [⟨"1", 10, some [c6Change], none⟩,
                ⟨"2", 20, none, some [c6Messaging]⟩,
                ⟨"3", 30, none, none⟩]⟩).map (fun a => (a.facebookId, a.time, a.item)) =
      [("1", 10, c6Change), ("2", 20, c6Messaging)] := by
  rw [normalizer_items_spec (fun _ _ => ⟨0, none⟩) "svc" c6Service
    ⟨"page", [⟨"1", 10, some [c6Change], none⟩,
              ⟨"2", 20, none, some [c6Messaging]⟩,
              ⟨"3", 30, none, none⟩]⟩ rfl]
  decide

/-- C6 counterexample: a subscribed-to-everything service and an entry
carrying both a changes array and a messaging array: only the changes
member is dispatched; the messaging member is never dispatched, because
the handler tests messaging only in the else branch of the changes
test. -/
theorem both_arrays_changes_only :
    ((allAttempts (fun _ _ => ⟨0, none⟩) [("svc", c6Service)] c6BothEnvelope).map
        (fun a => a.item) = [c6Change]) ∧
    (c6Messaging ∉ (allAttempts (fun _ _ => ⟨0, none⟩) [("svc", c6Service)]
        c6BothEnvelope).map (fun a => a.item)) ∧
    c6Messaging ≠ c6Change := by
  decide

/-- C7: the outbound envelope for a matched pair is shaped like the
inbound one but carries only the single item, re-wrapped as a
one-element changes array (for a field-keyed item) or messaging array
(for a sender-keyed item) under a one-element entry carrying the
original account id and time; and the end-to-end example envelope with
one http service subscribed to "feed" produces exactly one outbound
POST, to that service URL, carrying the stated envelope, whatever the
network outcomes are. -/
theorem outbound_body_spec :
    (∀ fb : String, ∀ t : Int, ∀ item : Item,
      truthyOpt (getKey item "field") = true → truthyOpt (getKey item "sender") = false →
      getBody fb t item = ⟨"page", [⟨t, fb, some [item], none⟩]⟩) ∧
    (∀ fb : String, ∀ t : Int, ∀ item : Item,
      truthyOpt (getKey item "field") = false → truthyOpt (getKey item "sender") = true →
      getBody fb t item = ⟨"page", [⟨t, fb, none, some [item]⟩]⟩) ∧
    (∀ env : DispatchEnv,
      outboundPosts env [("svc", c7Service)] c7Envelope =
        [("https://svc.example/hook", ⟨"page", [⟨1000, "42", some [c7Item], none⟩]⟩)]) := by
  refine ⟨?_, ?_, ?_⟩
  · intro fb t item h1 h2
    simp [getBody, h1, h2]
  · intro fb t item h1 h2
    simp [getBody, h1, h2]
  · intro env
    have hmatch : serviceMatch c7Service c7Item = true := by decide
    have h1 : allAttempts env [("svc", c7Service)] c7Envelope =
        [dispatchAttempt env "svc" c7Service "42" c7Item 1000] := by
      simp [allAttempts, processEntries, concatMap, entryItems, c7Envelope,
        pushItemAttempts, hmatch]
    rw [outboundPosts, h1]
    simp only [List.filterMap_cons, List.filterMap_nil, dispatchAttempt_service,
      dispatchAttempt_facebookId, dispatchAttempt_time, dispatchAttempt_item]
    rfl

theorem outbound_body_spec_witness :
    (getBody "42" 1000 c7Item = ⟨"page", [⟨1000, "42", some [c7Item], none⟩]⟩) ∧
    (getBody "9" 5 [("sender", JVal.objLit "u")] =
      ⟨"page", [⟨5, "9", none, some [[("sender", JVal.objLit "u")]]⟩]⟩) ∧
    (outboundPosts (fun _ _ => ⟨0, none⟩) [("svc", c7Service)] c7Envelope =
      [("https://svc.example/hook", ⟨"page", [⟨1000, "42", some [c7Item], none⟩]⟩)]) :=
  ⟨outbound_body_spec.1 "42" 1000 c7Item (by decide) (by decide),
   outbound_body_spec.2.1 "9" 5 [("sender", JVal.objLit "u")] (by decide) (by decide),
   outbound_body_spec.2.2 (fun _ _ => ⟨0, none⟩)⟩
